import Mathlib

/-!
Shallow embedding of the Supabase edge function
`FCM/supabase/functions/alert/index.ts` — a webhook handler that, on an
insert into the `smoke_logs` table, looks up the device's FCM push token,
formats an alert message, and forwards it to the FCM send endpoint.

JS strings are modelled as Lean `String` (a list of characters); the
handler is modelled as a pure function from its inputs (the parsed webhook
payload, the outcome of the device query, the outcome of access-token
acquisition, and the provider's response function) to an outcome paired
with a trace of the effects it performed.
-/

namespace SmokeAlarm

/-! ## String helpers mirroring the JS string operations used by the source -/

/-- Replaces the first occurrence of character `c` with `r`, mirroring the
JS call `s.replace(c, r)` with a one-character string pattern, which
replaces only the first match. -/
def replaceFirstChar (c r : Char) : List Char → List Char
  | [] => []
  | x :: xs => if x = c then r :: xs else x :: replaceFirstChar c r xs

/-- Drops the last `n` characters of a list. -/
def dropRightChars (n : Nat) (l : List Char) : List Char :=
  l.take (l.length - n)

/-- Whether `l` ends with the suffix `pat`, computed on reversed lists. -/
def endsWithList (l pat : List Char) : Bool :=
  l.reverse.take pat.length == pat.reverse

/-- Mirrors JS `s.endsWith(pat)` (and an end-anchored regex match). -/
def jsEndsWith (s pat : String) : Bool :=
  endsWithList s.data pat.data

/-! ## Timestamp normalization

Source (index.ts, lines 70-76):
  let detectedAtString = payload.record.detected_at
    .replace(' ', 'T')
    .replace(/\+00$/, 'Z');
  if (!detectedAtString.endsWith('Z')) { detectedAtString += 'Z'; }
  const detectedAtUTC = new Date(detectedAtString);
-/

/-- Direct translation of the source's normalization chain: replace the
first space with 'T', replace a trailing "+00" with 'Z', and append 'Z'
if the string does not already end with it. -/
def normalizeDetectedAt (s : String) : String :=
  let s1 : String := ⟨replaceFirstChar ' ' 'T' s.data⟩
  let s2 : String := if jsEndsWith s1 "+00" then ⟨dropRightChars 3 s1.data ++ ['Z']⟩ else s1
  if jsEndsWith s2 "Z" then s2 else ⟨s2.data ++ ['Z']⟩

/-- Modelled from the spec's words, step 1: replace the space separating
date and time with the standard date-time separator. -/
def specStepSeparator (s : String) : String :=
  ⟨replaceFirstChar ' ' 'T' s.data⟩

/-- Modelled from the spec's words, step 2: replace a trailing "+00" zone
suffix with the standard UTC marker. -/
def specStepZone (s : String) : String :=
  if jsEndsWith s "+00" then ⟨dropRightChars 3 s.data ++ ['Z']⟩ else s

/-- Modelled from the spec's words, step 3: if the string still lacks a
UTC marker, append one. -/
def specStepMarker (s : String) : String :=
  if jsEndsWith s "Z" then s else ⟨s.data ++ ['Z']⟩

/-! ## Civil-calendar arithmetic (days since the Unix epoch) -/

/-- Days from 1970-01-01 to the civil date `y-m-d` (proleptic Gregorian),
valid for dates from 1970 on. -/
def daysFromCivil (y m d : Nat) : Nat :=
  let y1 := if m ≤ 2 then y - 1 else y
  let era := y1 / 400
  let yoe := y1 % 400
  let doy := (153 * (if m > 2 then m - 3 else m + 9) + 2) / 5 + d - 1
  let doe := yoe * 365 + yoe / 4 - yoe / 100 + doy
  era * 146097 + doe - 719468

/-- Civil date `(y, m, d)` of the day `z` days after 1970-01-01. -/
def civilFromDays (z : Nat) : Nat × Nat × Nat :=
  let doe := z + 719468
  let era := doe / 146097
  let d := doe % 146097
  let yoe := (d - d / 1460 + d / 36524 - d / 146096) / 365
  let y := yoe + era * 400
  let doy := d - (365 * yoe + yoe / 4 - yoe / 100)
  let mp := (5 * doy + 2) / 153
  let day := doy - (153 * mp + 2) / 5 + 1
  let m := if mp < 10 then mp + 3 else mp - 9
  (if m ≤ 2 then y + 1 else y, m, day)

/-- Decimal digit character for `n < 10`. -/
def natDigitChar (n : Nat) : Char := Char.ofNat (48 + n)

def natToDecimalAux : Nat → Nat → List Char → List Char
  | 0, _, acc => acc
  | fuel + 1, n, acc =>
    if n < 10 then natDigitChar n :: acc
    else natToDecimalAux fuel (n / 10) (natDigitChar (n % 10) :: acc)

/-- Decimal rendering of a natural number. -/
def natToDecimal (n : Nat) : String := ⟨natToDecimalAux (n + 1) n []⟩

/-- Two-digit zero-padded rendering, as produced by the '2-digit' option. -/
def pad2 (n : Nat) : String :=
  if n < 10 then "0" ++ natToDecimal n else natToDecimal n

/-- Value of a decimal digit character. -/
def digitVal (c : Char) : Nat := c.toNat - 48

/-- Modelled from the JS runtime: `new Date(s)` restricted to the complete
ISO-8601 UTC shape "YYYY-MM-DDTHH:MM:SSZ" that the handler's two known
input formats normalize to, returning the instant as seconds since the
Unix epoch. Strings outside this shape (which the source leaves
unspecified, yielding an invalid date) return `none`. -/
def parseISOUTC (s : String) : Option Nat :=
  match s.data with
  | [y1, y2, y3, y4, q1, m1, m2, q2, d1, d2, q3, h1, h2, q4, n1, n2, q5, s1, s2, q6] =>
    if q1 = '-' ∧ q2 = '-' ∧ q3 = 'T' ∧ q4 = ':' ∧ q5 = ':' ∧ q6 = 'Z'
        ∧ y1.isDigit ∧ y2.isDigit ∧ y3.isDigit ∧ y4.isDigit
        ∧ m1.isDigit ∧ m2.isDigit ∧ d1.isDigit ∧ d2.isDigit
        ∧ h1.isDigit ∧ h2.isDigit ∧ n1.isDigit ∧ n2.isDigit
        ∧ s1.isDigit ∧ s2.isDigit then
      let y := 1000 * digitVal y1 + 100 * digitVal y2 + 10 * digitVal y3 + digitVal y4
      let mo := 10 * digitVal m1 + digitVal m2
      let da := 10 * digitVal d1 + digitVal d2
      let hh := 10 * digitVal h1 + digitVal h2
      let mi := 10 * digitVal n1 + digitVal n2
      let ss := 10 * digitVal s1 + digitVal s2
      if 1970 ≤ y ∧ 1 ≤ mo ∧ mo ≤ 12 ∧ 1 ≤ da ∧ da ≤ 31 ∧ hh ≤ 23 ∧ mi ≤ 59 ∧ ss ≤ 59 then
        some (daysFromCivil y mo da * 86400 + hh * 3600 + mi * 60 + ss)
      else none
    else none
  | _ => none

/-- The instant the handler parses: `new Date(detectedAtString)` applied to
the normalized `detected_at` string. -/
def detectedAtUTC (s : String) : Option Nat :=
  parseISOUTC (normalizeDetectedAt s)

/-- Abbreviated en-US month name used by the 'short' month option. -/
def monthShort : Nat → String
  | 1 => "Jan" | 2 => "Feb" | 3 => "Mar" | 4 => "Apr"
  | 5 => "May" | 6 => "Jun" | 7 => "Jul" | 8 => "Aug"
  | 9 => "Sep" | 10 => "Oct" | 11 => "Nov" | 12 => "Dec"
  | _ => ""

/-- Modelled from the JS runtime (ECMA-402):
`date.toLocaleString('en-US', opts)` with 2-digit hour and minute, 12-hour
clock, short month, 2-digit day, numeric year, and time zone Asia/Manila
(fixed offset UTC+8, no daylight saving). In the en-US locale the date
fields precede the time fields, separated by ", ". -/
def formatManilaEnUS (epochSec : Nat) : String :=
  let t := epochSec + 8 * 3600
  let days := t / 86400
  let secs := t % 86400
  let ymd := civilFromDays days
  let hh := secs / 3600
  let mi := secs % 3600 / 60
  let h12 := if hh % 12 = 0 then 12 else hh % 12
  let ampm := if hh < 12 then "AM" else "PM"
  monthShort ymd.2.1 ++ " " ++ pad2 ymd.2.2 ++ ", " ++ natToDecimal ymd.1 ++ ", "
    ++ pad2 h12 ++ ":" ++ pad2 mi ++ " " ++ ampm

/-- The `formattedTime` string the handler builds from `detected_at`:
normalization, UTC parse, then en-US Asia/Manila rendering. An
unparseable normalized string corresponds to JS rendering an invalid
date. -/
def formattedTimeOf (s : String) : String :=
  match detectedAtUTC s with
  | some t => formatManilaEnUS t
  | none => "Invalid Date"

/-! ## JSON values

Models the JSON data the handler exchanges: `JSON.stringify` on the
response bodies it builds, and `res.json()` on the provider's response.
Numbers are restricted to integers (no fraction or exponent) and string
escapes to the named single-character escapes; the handler's own payloads
and the claims' inputs stay inside this fragment. -/

inductive Json where
  | null
  | bool (b : Bool)
  | num (n : Int)
  | str (s : String)
  | arr (xs : List Json)
  | obj (kvs : List (String × Json))

/-- Decimal rendering of an integer. -/
def intToDecimal : Int → String
  | Int.ofNat n => natToDecimal n
  | Int.negSucc n => "-" ++ natToDecimal (n + 1)

/-- JSON string escaping as performed by `JSON.stringify`: quote,
backslash and the common control characters become two-character
escapes. -/
def escapeChar (c : Char) : List Char :=
  if c = '"' then ['\\', '"']
  else if c = '\\' then ['\\', '\\']
  else if c = '\n' then ['\\', 'n']
  else if c = '\t' then ['\\', 't']
  else if c = '\r' then ['\\', 'r']
  else if c = Char.ofNat 8 then ['\\', 'b']
  else if c = Char.ofNat 12 then ['\\', 'f']
  else [c]

def escapeJsonString (s : String) : String :=
  ⟨s.data.foldr (fun c acc => escapeChar c ++ acc) []⟩

/-- Joins rendered elements with commas, as in compact JSON output. -/
def commaJoin : List String → String
  | [] => ""
  | [x] => x
  | x :: y :: xs => x ++ "," ++ commaJoin (y :: xs)

mutual

/-- Modelled from the JS runtime: `JSON.stringify` — compact output, no
added whitespace, object keys in insertion order. -/
def jsonStringify : Json → String
  | Json.null => "null"
  | Json.bool b => if b then "true" else "false"
  | Json.num n => intToDecimal n
  | Json.str s => "\"" ++ escapeJsonString s ++ "\""
  | Json.arr xs => "[" ++ jsonStringifyArr xs ++ "]"
  | Json.obj kvs => "\x7b" ++ jsonStringifyObj kvs ++ "\x7d"

def jsonStringifyArr : List Json → String
  | [] => ""
  | [x] => jsonStringify x
  | x :: y :: xs => jsonStringify x ++ "," ++ jsonStringifyArr (y :: xs)

def jsonStringifyObj : List (String × Json) → String
  | [] => ""
  | [kv] => "\"" ++ escapeJsonString kv.1 ++ "\":" ++ jsonStringify kv.2
  | kv :: kv2 :: kvs =>
    "\"" ++ escapeJsonString kv.1 ++ "\":" ++ jsonStringify kv.2 ++ ","
      ++ jsonStringifyObj (kv2 :: kvs)

end

/-- Skips JSON insignificant whitespace. -/
def skipWs : List Char → List Char
  | [] => []
  | c :: cs =>
    if c = ' ' ∨ c = '\t' ∨ c = '\n' ∨ c = '\r' then skipWs cs else c :: cs

/-- Parses a JSON string body after the opening quote, returning the
unescaped content and the remaining input. -/
def parseStringBody : Nat → List Char → Option (List Char × List Char)
  | 0, _ => none
  | _, [] => none
  | fuel + 1, c :: cs =>
    if c = '"' then some ([], cs)
    else if c = '\\' then
      match cs with
      | [] => none
      | e :: cs2 =>
        let ec : Option Char :=
          if e = '"' then some '"'
          else if e = '\\' then some '\\'
          else if e = '/' then some '/'
          else if e = 'n' then some '\n'
          else if e = 't' then some '\t'
          else if e = 'r' then some '\r'
          else if e = 'b' then some (Char.ofNat 8)
          else if e = 'f' then some (Char.ofNat 12)
          else none
        match ec with
        | none => none
        | some ch =>
          match parseStringBody fuel cs2 with
          | some (rest, rem) => some (ch :: rest, rem)
          | none => none
    else
      match parseStringBody fuel cs with
      | some (rest, rem) => some (c :: rest, rem)
      | none => none

/-- Takes a maximal run of decimal digits. -/
def takeDigits : List Char → List Char × List Char
  | [] => ([], [])
  | c :: cs =>
    if c.isDigit then
      let p := takeDigits cs
      (c :: p.1, p.2)
    else ([], c :: cs)

/-- Numeric value of a digit run. -/
def digitsToNat (l : List Char) : Nat :=
  l.foldl (fun a c => 10 * a + digitVal c) 0

mutual

/-- Modelled from the JS runtime: recursive-descent JSON value parsing as
performed by `res.json()` / `JSON.parse`, on the fragment described at
`Json`. -/
def parseVal : Nat → List Char → Option (Json × List Char)
  | 0, _ => none
  | fuel + 1, cs =>
    match skipWs cs with
    | [] => none
    | c :: rest =>
      if c = 'n' then
        match rest with
        | 'u' :: 'l' :: 'l' :: r => some (Json.null, r)
        | _ => none
      else if c = 't' then
        match rest with
        | 'r' :: 'u' :: 'e' :: r => some (Json.bool true, r)
        | _ => none
      else if c = 'f' then
        match rest with
        | 'a' :: 'l' :: 's' :: 'e' :: r => some (Json.bool false, r)
        | _ => none
      else if c = '"' then
        match parseStringBody (rest.length + 1) rest with
        | some (content, rem) => some (Json.str ⟨content⟩, rem)
        | none => none
      else if c = '[' then
        match skipWs rest with
        | c2 :: r2 =>
          if c2 = ']' then some (Json.arr [], r2)
          else
            match parseArrItems fuel rest with
            | some (vs, rem) => some (Json.arr vs, rem)
            | none => none
        | [] => none
      else if c = Char.ofNat 123 then
        match skipWs rest with
        | c2 :: r2 =>
          if c2 = Char.ofNat 125 then some (Json.obj [], r2)
          else
            match parseObjItems fuel rest with
            | some (kvs, rem) => some (Json.obj kvs, rem)
            | none => none
        | [] => none
      else if c = '-' ∨ c.isDigit then
        let start := if c = '-' then rest else c :: rest
        match takeDigits start with
        | ([], _) => none
        | (d0 :: ds, rem) =>
          match rem with
          | r :: _ =>
            if r = '.' ∨ r = 'e' ∨ r = 'E' then none
            else
              some (Json.num (if c = '-' then -(digitsToNat (d0 :: ds) : Int)
                              else (digitsToNat (d0 :: ds) : Int)), rem)
          | [] =>
            some (Json.num (if c = '-' then -(digitsToNat (d0 :: ds) : Int)
                            else (digitsToNat (d0 :: ds) : Int)), rem)
      else none

def parseArrItems : Nat → List Char → Option (List Json × List Char)
  | 0, _ => none
  | fuel + 1, cs =>
    match parseVal fuel cs with
    | none => none
    | some (v, rest) =>
      match skipWs rest with
      | c :: r2 =>
        if c = ',' then
          match parseArrItems fuel r2 with
          | some (vs, rem) => some (v :: vs, rem)
          | none => none
        else if c = ']' then some ([v], r2)
        else none
      | [] => none

def parseObjItems : Nat → List Char → Option (List (String × Json) × List Char)
  | 0, _ => none
  | fuel + 1, cs =>
    match skipWs cs with
    | c :: r1 =>
      if c = '"' then
        match parseStringBody (r1.length + 1) r1 with
        | some (key, r2) =>
          match skipWs r2 with
          | c2 :: r3 =>
            if c2 = ':' then
              match parseVal fuel r3 with
              | some (v, r4) =>
                match skipWs r4 with
                | c3 :: r5 =>
                  if c3 = ',' then
                    match parseObjItems fuel r5 with
                    | some (kvs, rem) => some ((⟨key⟩, v) :: kvs, rem)
                    | none => none
                  else if c3 = Char.ofNat 125 then some ([(⟨key⟩, v)], r5)
                  else none
                | [] => none
              | none => none
            else none
          | [] => none
        | none => none
      else none
    | [] => none

end

/-- Modelled from the JS runtime: `res.json()` — parse the whole body as
one JSON value, allowing surrounding whitespace; `none` corresponds to
the rejected promise a malformed body produces. -/
def jsonParse (s : String) : Option Json :=
  match parseVal (s.data.length + 1) s.data with
  | some (v, rest) => if skipWs rest = [] then some v else none
  | none => none

/-! ## Data model (index.ts interfaces and collaborators) -/

/-- The `record` field of the inbound payload (interface `SmokeLog`). -/
structure SmokeLog where
  id : String
  device_id : String
  detected_at : String
  status : Bool

/-- The inbound webhook payload (interface `SmokeLogWebhookPayload`). The
TypeScript types annotate `type` as the literal 'INSERT', but the handler
compares the runtime value against 'INSERT', so both discriminants are
plain strings here. -/
structure WebhookPayload where
  type : String
  table : String
  record : SmokeLog
  schema : String

/-- The columns the device query selects: `fcm_token, area, unit_no`.
`none` models an SQL NULL / absent field. -/
structure Device where
  fcm_token : Option String
  area : Option String
  unit_no : Option String

/-- JS falsiness of an optional string field: null, undefined and the
empty string are falsy (`!device.fcm_token`). -/
def jsFalsyStr : Option String → Bool
  | none => true
  | some s => s == ""

/-- JS `o || dflt` on an optional string: the default is used when the
field is absent or empty (`device.area || 'Unknown'`). -/
def jsOrStr (o : Option String) (dflt : String) : String :=
  match o with
  | none => dflt
  | some s => if s == "" then dflt else s

/-- The destructured result of `await supabase.from('device')...single()`:
a `data` field (the row, or null) and an `error` field. The handler
destructures only `data`. -/
structure QueryResult where
  data : Option Device
  error : Option String

/-- Modelled from the supabase-js client: `.single()` yields `data` only
when no storage error occurred and exactly one row matches the filter; a
storage error, zero rows or multiple rows all yield null `data` with the
`error` channel set. -/
def singleQuery (rows : List Device) (storageError : Option String) : QueryResult :=
  match storageError with
  | some e => ⟨none, some e⟩
  | none =>
    match rows with
    | [d] => ⟨some d, none⟩
    | _ => ⟨none, some "Cannot coerce the result to a single JSON object"⟩

/-- The static credential bundle `service-account.json`. -/
structure ServiceAccount where
  client_email : String
  private_key : String
  project_id : String

/-- The notification content placed in the FCM message. -/
structure FcmMessage where
  token : String
  title : String
  body : String

/-- The request the handler sends to the provider: the send-endpoint URL,
the bearer access token, and the message. -/
structure ProviderRequest where
  url : String
  bearer : String
  message : FcmMessage

/-- The provider's HTTP response as the handler observes it: `res.status`
and the raw body that `res.json()` parses. -/
structure ProviderResponse where
  status : Nat
  body : String

/-- The FCM send-endpoint URL built from the credential bundle's project
id. -/
def fcmSendUrl (projectId : String) : String :=
  "https://fcm.googleapis.com/v1/projects/" ++ projectId ++ "/messages:send"

/-- The serialized HTTP body of the fetch call:
JSON.stringify of the message wrapper. -/
def fetchBody (m : FcmMessage) : String :=
  jsonStringify (Json.obj [("message", Json.obj
    [("token", Json.str m.token),
     ("notification", Json.obj
       [("title", Json.str m.title), ("body", Json.str m.body)])])])

/-- How one invocation of the handler terminates. -/
inductive HandlerOutcome where
  | response (status : Nat) (body : String)
  | thrownJson (v : Json)
  | authRejected (e : String)
  | bodyParseFailed

/-- Trace of the externally visible effects one invocation performed:
whether the device table was queried, whether an access token was
requested, and the provider request sent (if any). -/
structure Effects where
  deviceLookedUp : Bool
  tokenRequested : Bool
  providerRequest : Option ProviderRequest

/-- The notification body template built by the handler. -/
def notifBodyOf (area : Option String) (detected_at : String) : String :=
  "A SMOKE HAS BEEN DETECTED\nAT: " ++ jsOrStr area "Unknown"
    ++ "\nON: " ++ formattedTimeOf detected_at

/-- The fixed informational body for ignored events. -/
def ignoredBody : String :=
  jsonStringify (Json.obj [("message", Json.str "Not a smoke_logs insert event.")])

/-- The fixed 404 body for a missing device or token. -/
def notFoundBody : String :=
  jsonStringify (Json.obj [("error", Json.str "Device FCM token not found.")])

/-- Direct translation of the `Deno.serve` handler body. Inputs stand for
the results of the awaited external interactions: `query` is the device
lookup's destructured result, `auth` the outcome of `getAccessToken`
(rejection carries the signing error), and `provider` maps the fetch
request to the provider's response. -/
def handleRequest (sa : ServiceAccount) (payload : WebhookPayload)
    (query : QueryResult) (auth : Except String String)
    (provider : ProviderRequest → ProviderResponse) : HandlerOutcome × Effects :=
  if payload.type ≠ "INSERT" ∨ payload.table ≠ "smoke_logs" then
    (HandlerOutcome.response 200 ignoredBody, ⟨false, false, none⟩)
  else
    match query.data with
    | none => (HandlerOutcome.response 404 notFoundBody, ⟨true, false, none⟩)
    | some device =>
      if jsFalsyStr device.fcm_token then
        (HandlerOutcome.response 404 notFoundBody, ⟨true, false, none⟩)
      else
        match auth with
        | Except.error e => (HandlerOutcome.authRejected e, ⟨true, true, none⟩)
        | Except.ok accessToken =>
          let fcmToken := device.fcm_token.getD ""
          let req : ProviderRequest :=
            ⟨fcmSendUrl sa.project_id, accessToken,
             ⟨fcmToken, "Smoke Alert!", notifBodyOf device.area payload.record.detected_at⟩⟩
          let res := provider req
          match jsonParse res.body with
          | none => (HandlerOutcome.bodyParseFailed, ⟨true, true, some req⟩)
          | some resData =>
            if res.status < 200 ∨ 299 < res.status then
              (HandlerOutcome.thrownJson resData, ⟨true, true, some req⟩)
            else
              (HandlerOutcome.response 200 (jsonStringify resData), ⟨true, true, some req⟩)

/-! ## Sample values used by concrete witnesses -/

/-- A sample credential bundle. -/
def saSample : ServiceAccount := ⟨"svc@example.iam", "key", "demo-project"⟩

/-- A sample inserted smoke log row. -/
def logSample : SmokeLog := ⟨"log1", "dev1", "2024-03-05 08:15:00+00", true⟩

/-- A sample valid insert payload on smoke_logs. -/
def insertPayloadSample : WebhookPayload := ⟨"INSERT", "smoke_logs", logSample, "public"⟩

/-- A sample device row carrying a token and an area. -/
def deviceSample : Device := ⟨some "tok-abc", some "Kitchen", some "12"⟩

/-- A sample device row with a token but no area label. -/
def deviceNoArea : Device := ⟨some "tok-abc", none, none⟩

/-- The provider request the handler builds on the delivery path. -/
def builtRequest (sa : ServiceAccount) (payload : WebhookPayload)
    (device : Device) (a : String) : ProviderRequest :=
  ⟨fcmSendUrl sa.project_id, a,
   ⟨device.fcm_token.getD "", "Smoke Alert!",
    notifBodyOf device.area payload.record.detected_at⟩⟩

/-- A sample successful provider response with a compact JSON body. -/
def presOk : ProviderResponse :=
  ⟨200, "\x7b\"name\":\"projects/demo-project/messages/1\"\x7d"⟩

/-- The parsed value of `presOk`'s body. -/
def vOk : Json := Json.obj [("name", Json.str "projects/demo-project/messages/1")]

/-- A sample successful provider response whose JSON body contains
whitespace, so it is not in compact serialized form. -/
def presSpaced : ProviderResponse :=
  ⟨200, "\x7b \"name\": \"projects/demo-project/messages/1\" \x7d"⟩

/-- A sample 403 provider rejection with a JSON error body. -/
def pres403 : ProviderResponse :=
  ⟨403, "\x7b\"error\":\x7b\"code\":403,\"status\":\"PERMISSION_DENIED\"\x7d\x7d"⟩

/-- The parsed value of `pres403`'s body. -/
def v403 : Json :=
  Json.obj [("error", Json.obj
    [("code", Json.num 403), ("status", Json.str "PERMISSION_DENIED")])]

/-- A provider that accepts everything with a compact JSON body. -/
def providerOkSample : ProviderRequest → ProviderResponse :=
  fun _ => presOk

/-! ## Helper lemmas -/

theorem replaceFirstChar_eq_of_not_mem (c r : Char) (l : List Char) (h : c ∉ l) :
    replaceFirstChar c r l = l := by
  induction l with
  | nil => rfl
  | cons x xs ih =>
    simp only [List.mem_cons, not_or] at h
    simp only [replaceFirstChar]
    rw [if_neg fun hx => h.1 hx.symm, ih h.2]

theorem endsWithList_append_single (l : List Char) (c : Char) :
    endsWithList (l ++ [c]) [c] = true := by
  simp [endsWithList, List.reverse_append]

theorem not_plus00_of_endsWith_z (l : List Char) (h : endsWithList l ['Z'] = true) :
    endsWithList l ['+', '0', '0'] = false := by
  unfold endsWithList at h ⊢
  cases hrev : l.reverse with
  | nil => rw [hrev] at h; simp at h
  | cons x t =>
    rw [hrev] at h
    simp at h
    rw [h]
    simp

theorem endsWith_after_marker (t : String) : jsEndsWith (specStepMarker t) "Z" = true := by
  unfold specStepMarker
  cases h : jsEndsWith t "Z" with
  | true => simp [h]
  | false =>
    rw [if_neg (by simp [h])]
    exact endsWithList_append_single t.data 'Z'

theorem jsOrStr_of_falsy (o : Option String) (d : String) (h : jsFalsyStr o = true) :
    jsOrStr o d = d := by
  cases o with
  | none => rfl
  | some s =>
    simp only [jsFalsyStr, beq_iff_eq] at h
    simp [jsOrStr, h]

theorem handle404_of_lookup (sa : ServiceAccount) (payload : WebhookPayload)
    (query : QueryResult) (auth : Except String String)
    (provider : ProviderRequest → ProviderResponse)
    (hType : payload.type = "INSERT") (hTable : payload.table = "smoke_logs")
    (hTok : ∀ d, query.data = some d → jsFalsyStr d.fcm_token = true) :
    handleRequest sa payload query auth provider =
      (HandlerOutcome.response 404 notFoundBody, ⟨true, false, none⟩) := by
  have hcond : ¬ (payload.type ≠ "INSERT" ∨ payload.table ≠ "smoke_logs") := by
    push_neg
    exact ⟨hType, hTable⟩
  unfold handleRequest
  rw [if_neg hcond]
  cases hd : query.data with
  | none => rfl
  | some d => simp [hTok d hd]

theorem handle_delivery (sa : ServiceAccount) (payload : WebhookPayload)
    (query : QueryResult) (auth : Except String String)
    (provider : ProviderRequest → ProviderResponse)
    (device : Device) (a : String)
    (hType : payload.type = "INSERT") (hTable : payload.table = "smoke_logs")
    (hdev : query.data = some device) (htok : jsFalsyStr device.fcm_token = false)
    (hauth : auth = Except.ok a) :
    handleRequest sa payload query auth provider =
      (match jsonParse (provider (builtRequest sa payload device a)).body with
       | none =>
         (HandlerOutcome.bodyParseFailed, ⟨true, true, some (builtRequest sa payload device a)⟩)
       | some resData =>
         if (provider (builtRequest sa payload device a)).status < 200 ∨
             299 < (provider (builtRequest sa payload device a)).status then
           (HandlerOutcome.thrownJson resData,
            ⟨true, true, some (builtRequest sa payload device a)⟩)
         else
           (HandlerOutcome.response 200 (jsonStringify resData),
            ⟨true, true, some (builtRequest sa payload device a)⟩)) := by
  subst hauth
  have hcond : ¬ (payload.type ≠ "INSERT" ∨ payload.table ≠ "smoke_logs") := by
    push_neg
    exact ⟨hType, hTable⟩
  unfold handleRequest
  rw [if_neg hcond, hdev]
  simp only [htok, Bool.false_eq_true, if_false]
  rfl

theorem handle_delivery_effects (sa : ServiceAccount) (payload : WebhookPayload)
    (query : QueryResult) (auth : Except String String)
    (provider : ProviderRequest → ProviderResponse)
    (device : Device) (a : String)
    (hType : payload.type = "INSERT") (hTable : payload.table = "smoke_logs")
    (hdev : query.data = some device) (htok : jsFalsyStr device.fcm_token = false)
    (hauth : auth = Except.ok a) :
    (handleRequest sa payload query auth provider).2 =
      ⟨true, true, some (builtRequest sa payload device a)⟩ := by
  rw [handle_delivery sa payload query auth provider device a hType hTable hdev htok hauth]
  split
  · rfl
  · split <;> rfl

/-! ## Claim theorems -/

/-- C4: for every detected_at input string, timestamp normalization
performs exactly these steps in order — replace the space separating date
and time with 'T', replace a trailing "+00" suffix with 'Z', append 'Z'
if the result does not already end with it — and the handler then parses
the resulting string as an absolute UTC instant. -/
theorem c4_normalization_steps (s : String) :
    normalizeDetectedAt s = specStepMarker (specStepZone (specStepSeparator s)) ∧
    detectedAtUTC s = parseISOUTC (specStepMarker (specStepZone (specStepSeparator s))) :=
  ⟨rfl, rfl⟩

/-- C8: timestamp normalization is the identity on already-well-formed
UTC strings — any string with no space that already ends with 'Z' (such
as "2024-03-05T08:15:00Z") is returned unchanged, so the parsed instant
is the same before and after normalization. -/
theorem c8_normalization_idempotent (s : String) (hsp : ' ' ∉ s.data)
    (hz : jsEndsWith s "Z" = true) :
    normalizeDetectedAt s = s ∧ detectedAtUTC s = parseISOUTC s := by
  have h1 : (⟨replaceFirstChar ' ' 'T' s.data⟩ : String) = s := by
    rw [replaceFirstChar_eq_of_not_mem _ _ _ hsp]
  have hplus : jsEndsWith s "+00" = false := not_plus00_of_endsWith_z s.data hz
  have hmain : normalizeDetectedAt s = s := by
    simp only [normalizeDetectedAt, h1, hplus]
    simp [hz]
  exact ⟨hmain, by unfold detectedAtUTC; rw [hmain]⟩

/-- Witness for C8 at the spec's example string. -/
theorem c8_normalization_idempotent_witness :
    (' ' ∉ ("2024-03-05T08:15:00Z" : String).data) ∧
    jsEndsWith "2024-03-05T08:15:00Z" "Z" = true ∧
    normalizeDetectedAt "2024-03-05T08:15:00Z" = "2024-03-05T08:15:00Z" :=
  ⟨by decide, by decide,
   (c8_normalization_idempotent "2024-03-05T08:15:00Z" (by decide) (by decide)).1⟩

/-- C9: for every input string whatsoever, the string produced by the
normalization steps ends with the character 'Z'. -/
theorem c9_normalized_always_ends_with_z (s : String) :
    jsEndsWith (normalizeDetectedAt s) "Z" = true :=
  endsWith_after_marker (specStepZone (specStepSeparator s))

/-- C5 (amended): for the input "2024-03-05 08:15:00+00", normalization
yields the instant 2024-03-05T08:15:00Z (epoch second 1709626500), and the
handler's en-US Asia/Manila rendering produces "Mar 05, 2024, 04:15 PM" —
the date fields precede the time fields in the en-US locale. -/
theorem c5_manila_formatting :
    detectedAtUTC "2024-03-05 08:15:00+00" = some 1709626500 ∧
    formattedTimeOf "2024-03-05 08:15:00+00" = "Mar 05, 2024, 04:15 PM" := by
  constructor <;> decide

/-- C5 counterexample: the claimed rendering "04:15 PM, Mar 05, 2024"
(time before date) is not what the handler's en-US formatting produces
for "2024-03-05 08:15:00+00". -/
theorem c5_claimed_order_false :
    formattedTimeOf "2024-03-05 08:15:00+00" ≠ "04:15 PM, Mar 05, 2024" := by
  decide

/-- C1: every payload whose type is not "INSERT" or whose table is not
"smoke_logs" yields an HTTP 200 response with exactly the informational
JSON body, and no device lookup, token acquisition, or provider call is
performed. -/
theorem c1_ignored_event (sa : ServiceAccount) (payload : WebhookPayload)
    (query : QueryResult) (auth : Except String String)
    (provider : ProviderRequest → ProviderResponse)
    (h : payload.type ≠ "INSERT" ∨ payload.table ≠ "smoke_logs") :
    handleRequest sa payload query auth provider =
      (HandlerOutcome.response 200 "\x7b\"message\":\"Not a smoke_logs insert event.\"\x7d",
       ⟨false, false, none⟩) := by
  unfold handleRequest
  rw [if_pos h]
  rfl

/-- Witness for C1 at a payload with type "UPDATE". -/
theorem c1_ignored_event_witness :
    handleRequest saSample ⟨"UPDATE", "smoke_logs", logSample, "public"⟩ ⟨none, none⟩
        (Except.ok "bearer1") providerOkSample =
      (HandlerOutcome.response 200 "\x7b\"message\":\"Not a smoke_logs insert event.\"\x7d",
       ⟨false, false, none⟩) :=
  c1_ignored_event saSample ⟨"UPDATE", "smoke_logs", logSample, "public"⟩ ⟨none, none⟩
    (Except.ok "bearer1") providerOkSample (Or.inl (by decide))

/-- C2: for every insert event on smoke_logs, if the device lookup's data
is null, or the returned record's fcm_token is absent or empty, the
handler returns HTTP 404 with exactly the missing-token JSON body (and
never reaches token acquisition or the provider). -/
theorem c2_missing_token_404 (sa : ServiceAccount) (payload : WebhookPayload)
    (query : QueryResult) (auth : Except String String)
    (provider : ProviderRequest → ProviderResponse)
    (hType : payload.type = "INSERT") (hTable : payload.table = "smoke_logs")
    (hTok : query.data = none ∨ ∃ d, query.data = some d ∧ jsFalsyStr d.fcm_token = true) :
    handleRequest sa payload query auth provider =
      (HandlerOutcome.response 404 "\x7b\"error\":\"Device FCM token not found.\"\x7d",
       ⟨true, false, none⟩) := by
  have hTok2 : ∀ d, query.data = some d → jsFalsyStr d.fcm_token = true := by
    intro d hd
    rcases hTok with h | ⟨d2, hd2, hf⟩
    · rw [h] at hd
      cases hd
    · rw [hd2] at hd
      injection hd with hh
      rw [← hh]
      exact hf
  exact handle404_of_lookup sa payload query auth provider hType hTable hTok2

/-- Witness for C2 at a device record whose fcm_token is the empty
string. -/
theorem c2_missing_token_404_witness :
    handleRequest saSample insertPayloadSample ⟨some ⟨some "", some "Kitchen", none⟩, none⟩
        (Except.ok "bearer1") providerOkSample =
      (HandlerOutcome.response 404 "\x7b\"error\":\"Device FCM token not found.\"\x7d",
       ⟨true, false, none⟩) :=
  c2_missing_token_404 saSample insertPayloadSample ⟨some ⟨some "", some "Kitchen", none⟩, none⟩
    (Except.ok "bearer1") providerOkSample rfl rfl
    (Or.inr ⟨⟨some "", some "Kitchen", none⟩, rfl, by decide⟩)

/-- C3: when the provider's status lies outside 200–299 and its body
parses as JSON, the handler throws the parsed provider body, terminating
the invocation abnormally, and never returns an HTTP 200 response of its
own. -/
theorem c3_provider_error_thrown (sa : ServiceAccount) (payload : WebhookPayload)
    (query : QueryResult) (auth : Except String String)
    (provider : ProviderRequest → ProviderResponse)
    (device : Device) (a : String) (pres : ProviderResponse) (v : Json)
    (hType : payload.type = "INSERT") (hTable : payload.table = "smoke_logs")
    (hdev : query.data = some device) (htok : jsFalsyStr device.fcm_token = false)
    (hauth : auth = Except.ok a) (hprov : provider = fun _ => pres)
    (hstat : pres.status < 200 ∨ 299 < pres.status)
    (hparse : jsonParse pres.body = some v) :
    (handleRequest sa payload query auth provider).1 = HandlerOutcome.thrownJson v ∧
    ∀ b, (handleRequest sa payload query auth provider).1 ≠ HandlerOutcome.response 200 b := by
  subst hauth
  subst hprov
  have hmain : handleRequest sa payload query (Except.ok a) (fun _ => pres) =
      (HandlerOutcome.thrownJson v, ⟨true, true, some (builtRequest sa payload device a)⟩) := by
    rw [handle_delivery sa payload query (Except.ok a) (fun _ => pres) device a
      hType hTable hdev htok rfl]
    simp only [hparse]
    rw [if_pos hstat]
  refine ⟨by rw [hmain], ?_⟩
  intro b hb
  rw [hmain] at hb
  exact HandlerOutcome.noConfusion hb

/-- Witness for C3 at a provider rejecting with status 403. -/
theorem c3_provider_error_thrown_witness :
    (299 < 403 ∧ jsonParse pres403.body = some v403) ∧
    (handleRequest saSample insertPayloadSample ⟨some deviceSample, none⟩
        (Except.ok "bearer1") (fun _ => pres403)).1 = HandlerOutcome.thrownJson v403 ∧
    ∀ b, (handleRequest saSample insertPayloadSample ⟨some deviceSample, none⟩
        (Except.ok "bearer1") (fun _ => pres403)).1 ≠ HandlerOutcome.response 200 b :=
  ⟨⟨by decide, rfl⟩,
   c3_provider_error_thrown saSample insertPayloadSample ⟨some deviceSample, none⟩
     (Except.ok "bearer1") (fun _ => pres403) deviceSample "bearer1" pres403 v403
     rfl rfl rfl (by decide) rfl rfl (Or.inr (by decide)) rfl⟩

/-- C6 (amended): on a 2xx provider response the handler returns, with
the default status 200 and no override, the provider's parsed JSON body
re-serialized by JSON.stringify — byte-identical to the provider's body
exactly when that body is already in compact serialized form. -/
theorem c6_success_reserialization (sa : ServiceAccount) (payload : WebhookPayload)
    (query : QueryResult) (auth : Except String String)
    (provider : ProviderRequest → ProviderResponse)
    (device : Device) (a : String) (pres : ProviderResponse) (v : Json)
    (hType : payload.type = "INSERT") (hTable : payload.table = "smoke_logs")
    (hdev : query.data = some device) (htok : jsFalsyStr device.fcm_token = false)
    (hauth : auth = Except.ok a) (hprov : provider = fun _ => pres)
    (hstat : 200 ≤ pres.status ∧ pres.status ≤ 299)
    (hparse : jsonParse pres.body = some v) :
    (handleRequest sa payload query auth provider).1 =
      HandlerOutcome.response 200 (jsonStringify v) ∧
    (pres.body = jsonStringify v →
      (handleRequest sa payload query auth provider).1 =
        HandlerOutcome.response 200 pres.body) := by
  subst hauth
  subst hprov
  have hns : ¬ (pres.status < 200 ∨ 299 < pres.status) := by omega
  have hmain : handleRequest sa payload query (Except.ok a) (fun _ => pres) =
      (HandlerOutcome.response 200 (jsonStringify v),
       ⟨true, true, some (builtRequest sa payload device a)⟩) := by
    rw [handle_delivery sa payload query (Except.ok a) (fun _ => pres) device a
      hType hTable hdev htok rfl]
    simp only [hparse]
    rw [if_neg hns]
  exact ⟨by rw [hmain], fun hb => by rw [hmain, hb]⟩

/-- Witness for C6 (amended) at a compact-body 200 provider response. -/
theorem c6_success_reserialization_witness :
    (200 ≤ presOk.status ∧ presOk.status ≤ 299) ∧ jsonParse presOk.body = some vOk ∧
    (handleRequest saSample insertPayloadSample ⟨some deviceSample, none⟩
        (Except.ok "bearer1") (fun _ => presOk)).1 =
      HandlerOutcome.response 200 (jsonStringify vOk) :=
  ⟨⟨by decide, by decide⟩, rfl,
   (c6_success_reserialization saSample insertPayloadSample ⟨some deviceSample, none⟩
     (Except.ok "bearer1") (fun _ => presOk) deviceSample "bearer1" presOk vOk
     rfl rfl rfl (by decide) rfl rfl ⟨by decide, by decide⟩ rfl).1⟩

/-- C6 counterexample: for a provider body containing whitespace, the
handler's response body is the compact re-serialization, not a
byte-identical copy of the provider's body. -/
theorem c6_not_byte_identical :
    (handleRequest saSample insertPayloadSample ⟨some deviceSample, none⟩
        (Except.ok "bearer1") (fun _ => presSpaced)).1 =
      HandlerOutcome.response 200 "\x7b\"name\":\"projects/demo-project/messages/1\"\x7d" ∧
    "\x7b\"name\":\"projects/demo-project/messages/1\"\x7d" ≠ presSpaced.body :=
  ⟨rfl, by decide⟩

/-- C7: every provider request the handler sends carries the constant
title "Smoke Alert!" and the three-line body template, whose second line
reads "AT: Unknown" whenever the device's area label is absent or
empty. -/
theorem c7_notification_content (sa : ServiceAccount) (payload : WebhookPayload)
    (query : QueryResult) (auth : Except String String)
    (provider : ProviderRequest → ProviderResponse)
    (device : Device) (a : String)
    (hType : payload.type = "INSERT") (hTable : payload.table = "smoke_logs")
    (hdev : query.data = some device) (htok : jsFalsyStr device.fcm_token = false)
    (hauth : auth = Except.ok a) :
    (handleRequest sa payload query auth provider).2.providerRequest =
      some (builtRequest sa payload device a) ∧
    (builtRequest sa payload device a).message.title = "Smoke Alert!" ∧
    (builtRequest sa payload device a).message.body =
      "A SMOKE HAS BEEN DETECTED\nAT: " ++ jsOrStr device.area "Unknown" ++ "\nON: "
        ++ formattedTimeOf payload.record.detected_at ∧
    (jsFalsyStr device.area = true →
      (builtRequest sa payload device a).message.body =
        "A SMOKE HAS BEEN DETECTED\nAT: Unknown\nON: "
          ++ formattedTimeOf payload.record.detected_at) := by
  refine ⟨?_, rfl, rfl, ?_⟩
  · rw [handle_delivery_effects sa payload query auth provider device a
      hType hTable hdev htok hauth]
  · intro hf
    show notifBodyOf device.area payload.record.detected_at = _
    unfold notifBodyOf
    rw [jsOrStr_of_falsy device.area "Unknown" hf]
    exact congrArg (fun t => t ++ formattedTimeOf payload.record.detected_at) (by decide)

/-- Witness for C7 at a device with no area label. -/
theorem c7_notification_content_witness :
    (handleRequest saSample insertPayloadSample ⟨some deviceNoArea, none⟩
        (Except.ok "bearer1") providerOkSample).2.providerRequest =
      some (builtRequest saSample insertPayloadSample deviceNoArea "bearer1") ∧
    (builtRequest saSample insertPayloadSample deviceNoArea "bearer1").message.body =
      "A SMOKE HAS BEEN DETECTED\nAT: Unknown\nON: "
        ++ formattedTimeOf "2024-03-05 08:15:00+00" :=
  ⟨(c7_notification_content saSample insertPayloadSample ⟨some deviceNoArea, none⟩
      (Except.ok "bearer1") providerOkSample deviceNoArea "bearer1"
      rfl rfl rfl (by decide) rfl).1,
   (c7_notification_content saSample insertPayloadSample ⟨some deviceNoArea, none⟩
      (Except.ok "bearer1") providerOkSample deviceNoArea "bearer1"
      rfl rfl rfl (by decide) rfl).2.2.2 rfl⟩

/-- C10: the handler reads only the lookup's data channel, so the error
channel is unobservable, and under the `.single()` semantics any outcome
other than exactly one matching row with a truthy fcm_token — missing
row, storage error, or multiple rows — produces the same HTTP 404
response. -/
theorem c10_lookup_failures_indistinguishable :
    (∀ (sa : ServiceAccount) (payload : WebhookPayload) (d : Option Device)
        (e1 e2 : Option String) (auth : Except String String)
        (provider : ProviderRequest → ProviderResponse),
      handleRequest sa payload ⟨d, e1⟩ auth provider =
        handleRequest sa payload ⟨d, e2⟩ auth provider) ∧
    (∀ (sa : ServiceAccount) (payload : WebhookPayload) (rows : List Device)
        (err : Option String) (auth : Except String String)
        (provider : ProviderRequest → ProviderResponse),
      payload.type = "INSERT" → payload.table = "smoke_logs" →
      ¬ (err = none ∧ ∃ d, rows = [d] ∧ jsFalsyStr d.fcm_token = false) →
      handleRequest sa payload (singleQuery rows err) auth provider =
        (HandlerOutcome.response 404 notFoundBody, ⟨true, false, none⟩)) := by
  constructor
  · intro sa payload d e1 e2 auth provider
    rfl
  · intro sa payload rows err auth provider hType hTable hnot
    apply handle404_of_lookup sa payload _ auth provider hType hTable
    intro d hd
    cases err with
    | some e => simp [singleQuery] at hd
    | none =>
      cases rows with
      | nil => simp [singleQuery] at hd
      | cons d1 rest =>
        cases rest with
        | nil =>
          simp only [singleQuery] at hd
          injection hd with hh
          cases hb : jsFalsyStr d.fcm_token with
          | true => rfl
          | false =>
            exact absurd ⟨rfl, d, by rw [hh], hb⟩ hnot
        | cons d2 rest2 => simp [singleQuery] at hd

/-- Witness for C10 at a lookup matching no rows. -/
theorem c10_lookup_failures_indistinguishable_witness :
    handleRequest saSample insertPayloadSample (singleQuery [] none)
        (Except.ok "bearer1") providerOkSample =
      (HandlerOutcome.response 404 notFoundBody, ⟨true, false, none⟩) :=
  c10_lookup_failures_indistinguishable.2 saSample insertPayloadSample [] none
    (Except.ok "bearer1") providerOkSample rfl rfl
    (by rintro ⟨-, d, hd, -⟩; cases hd)

end SmokeAlarm
